import Mathlib

/-!
Verification of the mcp-nano-banana image-generation MCP server
(`src/index.ts`) against its natural-language specification.

The shallow embedding below translates the TypeScript source directly:
JavaScript string truthiness becomes `jsTruthy`, default function parameters
become `Option.getD` at the call boundary, the `fetch` network is an oracle
`net : Nat → HttpResp` consumed one response per request (the fetch API
derives `response.ok` from the status code), and the filesystem is a pair of
oracles (`fsRead` for `readFile`, `fsWriteErr` for `writeFile` failures).
`generateImage` returns, beside its result, the trace of outbound requests
so that claims about how many network calls are issued and what they carry
can be stated and proved.
-/

namespace NanoBanana

deriving instance DecidableEq for Except

/-- Model names, from `src/index.ts` (defaults and the fallback target). -/
def proModel : String := "gemini-3-pro-image-preview"

/-- The fast model used as the fallback target. -/
def flashModel : String := "gemini-2.5-flash-image"

/-- Base URL constant `GEMINI_API_URL` from `src/index.ts` line 13. -/
def GEMINI_API_URL : String := "https://generativelanguage.googleapis.com/v1beta/models"

/-- Endpoint for a model, from line 130 of the source. -/
def requestUrl (model : String) : String :=
  GEMINI_API_URL ++ "/" ++ model ++ ":generateContent"

/-- JavaScript truthiness on a possibly-absent string: `undefined` and the
empty string are falsy, every other string is truthy. -/
def jsTruthy : Option String → Bool
  | none => false
  | some s => s != ""

/-- JavaScript `a || b` on a possibly-absent string `a` with string default
`b`: returns `b` when `a` is absent or empty (falsy). Used for
`image.mimeType || "image/png"` on line 122 of the source. -/
def jsStrOr : Option String → String → String
  | none, d => d
  | some s, d => if s = "" then d else s

/-- Input image record (`InputImage` in the source): base64 data plus a
MIME type; the MIME type is modelled as possibly absent because the request
builder guards it with `||`. -/
structure InputImage where
  data : String
  mimeType : Option String
deriving Repr, DecidableEq

/-- A part of the outbound request body: either a text part or an
inline-data part (line 115 of the source). -/
inductive Part where
  | text (t : String)
  | inlineData (mimeType data : String)
deriving Repr, DecidableEq

/-- Outbound JSON body (lines 137-142): `contents: [{parts}]` plus the fixed
`generationConfig.responseModalities`. -/
structure RequestBody where
  parts : List Part
  responseModalities : List String
deriving Repr, DecidableEq

/-- One outbound HTTP request: URL, the `x-goog-api-key` header value, and
the JSON body (lines 128-145 of the source). -/
structure GenRequest where
  url : String
  apiKeyHeader : String
  body : RequestBody
deriving Repr, DecidableEq

/-- Build the parts list: text prompt first, then one inline-data part per
image in order, MIME type defaulting to image/png (lines 114-126). -/
def buildParts (prompt : String) (images : List InputImage) : List Part :=
  Part.text prompt ::
    images.map (fun image => Part.inlineData (jsStrOr image.mimeType "image/png") image.data)

/-- The request issued by `makeRequest` (lines 128-145) for a given model. -/
def mkRequest (apiKey : String) (parts : List Part) (currentModel : String) : GenRequest :=
  { url := requestUrl currentModel
    apiKeyHeader := apiKey
    body := { parts := parts, responseModalities := ["TEXT", "IMAGE"] } }

/-- Error object inside a Gemini response body. -/
structure GemError where
  message : String
deriving Repr, DecidableEq

/-- Inline data of a response part. -/
structure InlineData where
  mimeType : String
  data : String
deriving Repr, DecidableEq

/-- One part of a Gemini response candidate (interface `GeminiResponse`,
lines 15-30 of the source): optional text and optional inline data. -/
structure RespPart where
  text : Option String
  inlineData : Option InlineData
deriving Repr, DecidableEq

/-- Content of a candidate: an optional parts list. -/
structure Content where
  parts : Option (List RespPart)
deriving Repr, DecidableEq

/-- One response candidate: optional content. -/
structure Candidate where
  content : Option Content
deriving Repr, DecidableEq

/-- Parsed JSON body of a Gemini response. -/
structure GeminiResponse where
  candidates : Option (List Candidate) := none
  error : Option GemError := none
deriving Repr, DecidableEq

/-- An HTTP response as seen through the fetch API: a status code, the raw
body text (consulted on failure) and the parsed JSON body (consulted on
success). -/
structure HttpResp where
  status : Nat
  bodyText : String
  bodyJson : GeminiResponse
deriving Repr, DecidableEq

/-- Fetch derives `response.ok` from the status: true iff the status is in
the range 200-299. -/
def HttpResp.ok (r : HttpResp) : Bool :=
  decide (200 ≤ r.status ∧ r.status < 300)

/-- Status codes that trigger the pro-to-flash fallback (line 154). -/
def retryableStatus (s : Nat) : Bool :=
  s == 429 || s == 403 || s == 402

/-- Normalized generation result (`generateImage` return type, line 108). -/
structure GenResult where
  text : Option String := none
  imageData : Option String := none
  mimeType : Option String := none
  modelUsed : String
  fallback : Bool
deriving Repr, DecidableEq

/-- The optional chain `data.candidates?.[0]?.content?.parts`
(line 172 of the source). -/
def firstParts (g : GeminiResponse) : Option (List RespPart) :=
  match g.candidates with
  | none => none
  | some cs =>
    match cs.head? with
    | none => none
    | some c =>
      match c.content with
      | none => none
      | some ct => ct.parts

/-- The scan over response parts (lines 182-190): a part with truthy text
overwrites `result.text`, a part with inline data overwrites
`result.imageData` and `result.mimeType`; later parts win. -/
def scanParts : List RespPart → GenResult → GenResult
  | [], acc => acc
  | p :: rest, acc =>
    let acc1 := if jsTruthy p.text then { acc with text := p.text } else acc
    let acc2 :=
      match p.inlineData with
      | some d => { acc1 with imageData := some d.data, mimeType := some d.mimeType }
      | none => acc1
    scanParts rest acc2

/-- Processing of the final response (lines 161-192): transport error when
not ok, payload error when the body carries an error object, the
no-content check, then the part scan. -/
def finishResponse (resp : HttpResp) (usedModel : String) (didFallback : Bool) :
    Except String GenResult :=
  if !resp.ok then
    Except.error ("Gemini API error: " ++ toString resp.status ++ " - " ++ resp.bodyText)
  else
    match resp.bodyJson.error with
    | some e => Except.error ("Gemini API error: " ++ e.message)
    | none =>
      match firstParts resp.bodyJson with
      | none => Except.error "No content generated"
      | some rps =>
        if rps.length = 0 then Except.error "No content generated"
        else Except.ok (scanParts rps { modelUsed := usedModel, fallback := didFallback })

/-- Shallow embedding of `generateImage` (lines 102-193). The network is an
oracle `net` consumed in request order: the first fetch receives `net 0`,
the retry (when taken) receives `net 1`. Returns the result together with
the trace of requests issued. The `aspectRatioArg` and `outputFormatArg`
parameters are accepted but unused, exactly as in the source
(lines 106-107). Default parameters (applied on `undefined`) become
`Option.getD` at entry. -/
def generateImage (apiKey : Option String) (net : Nat → HttpResp) (prompt : String)
    (images : List InputImage)
    (modelArg aspectRatioArg outputFormatArg : Option String) :
    Except String GenResult × List GenRequest :=
  match apiKey with
  | none => (Except.error "GEMINI_API_KEY environment variable is not set", [])
  | some key =>
    let model := modelArg.getD proModel
    let parts := buildParts prompt images
    if !(net 0).ok && model == proModel then
      if retryableStatus (net 0).status then
        (finishResponse (net 1) flashModel true,
         [mkRequest key parts model, mkRequest key parts flashModel])
      else
        (finishResponse (net 0) model false, [mkRequest key parts model])
    else
      (finishResponse (net 0) model false, [mkRequest key parts model])

/-- Base64 alphabet in index order. -/
def base64Chars : List Char :=
  "ABCDEFGHIJKLMNOPQRSTUVWXYZabcdefghijklmnopqrstuvwxyz0123456789+/".toList

/-- Character for a 6-bit value. -/
def b64Char (n : Nat) : Char := base64Chars.getD n 'A'

/-- Numeric value of a base64 character, `none` for padding and any
character outside the alphabet. -/
def b64Val (c : Char) : Option Nat :=
  let i := base64Chars.indexOf c
  if i < 64 then some i else none

/-- Base64 encoding of a byte sequence (each byte a `Nat` below 256),
modelling `Buffer.toString` with base64 as used by `loadImageFromPath`. -/
def base64Encode : List Nat → String
  | [] => ""
  | [a] =>
    String.mk [b64Char (a / 4), b64Char (a % 4 * 16)] ++ "=="
  | [a, b] =>
    String.mk [b64Char (a / 4), b64Char (a % 4 * 16 + b / 16), b64Char (b % 16 * 4)] ++ "="
  | a :: b :: c :: rest =>
    String.mk [b64Char (a / 4), b64Char (a % 4 * 16 + b / 16),
               b64Char (b % 16 * 4 + c / 64), b64Char (c % 64)] ++ base64Encode rest

/-- Regroup a sequence of 6-bit values into bytes; a trailing lone value
yields no byte, matching lenient JavaScript base64 decoding. -/
def b64Regroup : List Nat → List Nat
  | a :: b :: c :: d :: rest =>
    (a * 4 + b / 16) :: (b % 16 * 16 + c / 4) :: (c % 4 * 64 + d) :: b64Regroup rest
  | [a, b, c] => [a * 4 + b / 16, b % 16 * 16 + c / 4]
  | [a, b] => [a * 4 + b / 16]
  | _ => []

/-- Base64 decoding of a string into bytes, modelling
`Buffer.from(data, base64)` as used by the file-save branch of the tool
handler: characters outside the alphabet (including padding) are ignored. -/
def base64Decode (s : String) : List Nat :=
  b64Regroup (s.toList.filterMap b64Val)

/-- Characters of the final path component (after the last slash). -/
def basenameChars (p : String) : List Char :=
  (p.toList.reverse.takeWhile (fun c => c != '/')).reverse

/-- The file extension, modelling `path.extname`: the suffix of the
basename from its last dot, empty when the basename has no dot or the only
dot is its first character. -/
def extnameOf (p : String) : String :=
  let base := basenameChars p
  let afterDot := base.reverse.takeWhile (fun c => c != '.')
  if afterDot.length = base.length then ""
  else if afterDot.length + 1 = base.length then ""
  else String.mk ('.' :: afterDot.reverse)

/-- ASCII lowercasing of a string, modelling `toLowerCase` as applied to
file extensions. -/
def lowerAscii (s : String) : String :=
  String.mk (s.toList.map Char.toLower)

/-- Extension-to-MIME-type table with image/png default, translating
`getMimeType` (lines 37-47 of the source). -/
def getMimeType (filePath : String) : String :=
  let ext := lowerAscii (extnameOf filePath)
  if ext = ".png" then "image/png"
  else if ext = ".jpg" then "image/jpeg"
  else if ext = ".jpeg" then "image/jpeg"
  else if ext = ".webp" then "image/webp"
  else if ext = ".gif" then "image/gif"
  else "image/png"

/-- Translation of `loadImageFromPath` (lines 49-54): read the file bytes
through the filesystem oracle, base64-encode them, and pair them with the
MIME type inferred from the extension. A read failure propagates. -/
def loadImageFromPath (fsRead : String → Except String (List Nat)) (filePath : String) :
    Except String InputImage :=
  match fsRead filePath with
  | Except.error e => Except.error e
  | Except.ok buffer =>
    Except.ok { data := base64Encode buffer, mimeType := some (getMimeType filePath) }

/-- Sequential image loading, aborting on the first failing path
(lines 229-232 of the source). -/
def loadImagesList (fsRead : String → Except String (List Nat)) :
    List String → Except String (List InputImage)
  | [] => Except.ok []
  | p :: rest =>
    match loadImageFromPath fsRead p with
    | Except.error e => Except.error e
    | Except.ok image =>
      match loadImagesList fsRead rest with
      | Except.error e => Except.error e
      | Except.ok more => Except.ok (image :: more)

/-- Translation of the image-loading block of the handler (lines 226-233):
load only when `imagePaths` is present and non-empty. -/
def loadImages (fsRead : String → Except String (List Nat))
    (imagePaths : Option (List String)) : Except String (List InputImage) :=
  match imagePaths with
  | none => Except.ok []
  | some ps => if ps.length > 0 then loadImagesList fsRead ps else Except.ok []

/-- Outward content block of a tool response: a text block or an inline
image block. -/
inductive ContentBlock where
  | text (t : String)
  | image (data mimeType : String)
deriving Repr, DecidableEq

/-- Response returned by the tool handler. -/
structure ToolResponse where
  content : List ContentBlock
  isError : Bool
deriving Repr, DecidableEq

/-- A file write performed by the handler: target path and decoded bytes. -/
structure WriteEvent where
  path : String
  bytes : List Nat
deriving Repr, DecidableEq

/-- Arguments of one `generate_image` invocation. All but the prompt are
optional; `aspectRatioArg` and `outputFormatArg` model the `aspectRatio`
and `outputFormat` arguments of the source. -/
structure ToolArgs where
  prompt : String
  imagePaths : Option (List String) := none
  model : Option String := none
  aspectRatioArg : Option String := none
  outputFormatArg : Option String := none
  outputPath : Option String := none

/-- Environment of the handler: the credential, a filesystem read oracle,
the network oracle, and a write oracle giving the error message of a
failing write (`none` meaning the write succeeds). -/
structure ToolEnv where
  apiKey : Option String
  fsRead : String → Except String (List Nat)
  net : Nat → HttpResp
  fsWriteErr : String → Option String

/-- The status text block of the handler (lines 246-253): the model used,
a fallback note when a fallback occurred, and the result text appended on
a new paragraph when truthy. -/
def statusText (r : GenResult) : String :=
  let s0 := "Model used: " ++ r.modelUsed
  let s1 :=
    if r.fallback then
      s0 ++ " (fallback from gemini-3-pro-image-preview due to quota/rate limit)"
    else s0
  match r.text with
  | some t => if t != "" then s1 ++ "\n\n" ++ t else s1
  | none => s1

/-- Rendering of a generation result into outward content (lines 243-271):
the status block, then, when image data and MIME type are both truthy,
either a file write plus confirmation block (truthy output path) or an
inline image block. A failing write propagates its error. -/
def renderContent (r : GenResult) (outputPath : Option String)
    (fsWriteErr : String → Option String) :
    Except String (List ContentBlock × List WriteEvent) :=
  let base : List ContentBlock := [ContentBlock.text (statusText r)]
  match r.imageData, r.mimeType with
  | some d, some m =>
    if d != "" && m != "" then
      match outputPath with
      | some p =>
        if p != "" then
          match fsWriteErr p with
          | some e => Except.error e
          | none =>
            Except.ok (base ++ [ContentBlock.text ("Image saved to: " ++ p)],
                       [{ path := p, bytes := base64Decode d }])
        else Except.ok (base ++ [ContentBlock.image d m], [])
      | none => Except.ok (base ++ [ContentBlock.image d m], [])
    else Except.ok (base, [])
  | _, _ => Except.ok (base, [])

/-- Body of the `generate_image` branch of the handler: load images, call
`generateImage`, render the result. Any error short-circuits. -/
def runTool (env : ToolEnv) (args : ToolArgs) :
    Except String (List ContentBlock × List WriteEvent) :=
  match loadImages env.fsRead args.imagePaths with
  | Except.error e => Except.error e
  | Except.ok images =>
    match (generateImage env.apiKey env.net args.prompt images
             args.model args.aspectRatioArg args.outputFormatArg).1 with
    | Except.error e => Except.error e
    | Except.ok result => renderContent result args.outputPath env.fsWriteErr

/-- The uniform error response produced by the catch block (lines 275-281). -/
def errorResponse (msg : String) : ToolResponse :=
  { content := [ContentBlock.text ("Error: " ++ msg)], isError := true }

/-- Translation of the `CallToolRequestSchema` handler (lines 212-282):
dispatch on the tool name, catch every failure of the chain and convert it
into an error-flagged single text block. An error leaves no write behind,
since the only write in the chain is followed by infallible steps. -/
def handleCallTool (env : ToolEnv) (name : String) (args : ToolArgs) :
    ToolResponse × List WriteEvent :=
  if name = "generate_image" then
    match runTool env args with
    | Except.ok (c, w) => ({ content := c, isError := false }, w)
    | Except.error msg => (errorResponse msg, [])
  else (errorResponse ("Unknown tool: " ++ name), [])

/-- Spec-side definition, following the words of the specification for the
response normalization: the text of the last text-bearing part of the
list, later parts winning, `none` when no part bears truthy text. -/
def lastTruthyText : List RespPart → Option String
  | [] => none
  | p :: rest =>
    match lastTruthyText rest with
    | some t => some t
    | none => if jsTruthy p.text then p.text else none

/-- Spec-side definition: the inline data of the last image-bearing part,
later parts winning. -/
def lastInline : List RespPart → Option InlineData
  | [] => none
  | p :: rest =>
    match lastInline rest with
    | some d => some d
    | none => p.inlineData

theorem scanParts_meta (rps : List RespPart) (acc : GenResult) :
    (scanParts rps acc).modelUsed = acc.modelUsed ∧
    (scanParts rps acc).fallback = acc.fallback := by
  induction rps generalizing acc with
  | nil => simp [scanParts]
  | cons p rest ih =>
    simp only [scanParts]
    cases hp : p.inlineData <;> cases hjt : jsTruthy p.text <;> simp [hp, hjt, ih]

theorem scanParts_text (rps : List RespPart) (acc : GenResult) :
    (scanParts rps acc).text =
      match lastTruthyText rps with
      | some t => some t
      | none => acc.text := by
  induction rps generalizing acc with
  | nil => simp [scanParts, lastTruthyText]
  | cons p rest ih =>
    simp only [scanParts, lastTruthyText]
    cases hp : p.inlineData <;> cases hrest : lastTruthyText rest <;>
      cases htext : p.text <;> simp_all [jsTruthy, ih] <;> split <;> simp_all

theorem scanParts_inline (rps : List RespPart) (acc : GenResult) :
    (scanParts rps acc).imageData =
      (match lastInline rps with
       | some d => some d.data
       | none => acc.imageData) ∧
    (scanParts rps acc).mimeType =
      (match lastInline rps with
       | some d => some d.mimeType
       | none => acc.mimeType) := by
  induction rps generalizing acc with
  | nil => simp [scanParts, lastInline]
  | cons p rest ih =>
    simp only [scanParts, lastInline]
    cases hp : p.inlineData <;> cases hrest : lastInline rest <;>
      cases hjt : jsTruthy p.text <;> simp_all [ih]

theorem lastTruthyText_eq_none_iff (rps : List RespPart) :
    lastTruthyText rps = none ↔ ∀ p ∈ rps, jsTruthy p.text = false := by
  induction rps with
  | nil => simp [lastTruthyText]
  | cons p rest ih =>
    simp only [lastTruthyText]
    cases hrest : lastTruthyText rest <;> cases hjt : jsTruthy p.text <;>
      cases htext : p.text <;> simp_all [jsTruthy]

theorem lastInline_eq_none_iff (rps : List RespPart) :
    lastInline rps = none ↔ ∀ p ∈ rps, p.inlineData = none := by
  induction rps with
  | nil => simp [lastInline]
  | cons p rest ih =>
    simp only [lastInline]
    cases hrest : lastInline rest <;> cases hp : p.inlineData <;> simp_all

theorem retryableStatus_iff (s : Nat) :
    retryableStatus s = true ↔ s = 429 ∨ s = 403 ∨ s = 402 := by
  simp [retryableStatus, or_assoc]

theorem ok_eq_true_iff (r : HttpResp) :
    r.ok = true ↔ 200 ≤ r.status ∧ r.status < 300 := by
  simp [HttpResp.ok]

theorem retryable_not_ok (r : HttpResp) (h : retryableStatus r.status = true) :
    r.ok = false := by
  rcases (retryableStatus_iff _).1 h with h' | h' | h' <;>
    simp [HttpResp.ok, h']

theorem ok_not_retryable (r : HttpResp) (h : r.ok = true) :
    retryableStatus r.status = false := by
  rcases (ok_eq_true_iff r).1 h with ⟨h1, h2⟩
  cases hb : retryableStatus r.status
  · rfl
  · rcases (retryableStatus_iff _).1 hb with h' | h' | h' <;> omega

theorem finishResponse_not_ok (resp : HttpResp) (u : String) (f : Bool)
    (h : resp.ok = false) :
    finishResponse resp u f =
      Except.error ("Gemini API error: " ++ toString resp.status ++ " - " ++ resp.bodyText) := by
  simp [finishResponse, h]

theorem finishResponse_body_error (resp : HttpResp) (u : String) (f : Bool) (e : GemError)
    (hok : resp.ok = true) (he : resp.bodyJson.error = some e) :
    finishResponse resp u f = Except.error ("Gemini API error: " ++ e.message) := by
  simp [finishResponse, hok, he]

theorem finishResponse_ok_meta {resp : HttpResp} {u : String} {f : Bool} {r : GenResult}
    (h : finishResponse resp u f = Except.ok r) :
    r.modelUsed = u ∧ r.fallback = f := by
  unfold finishResponse at h
  split at h
  · cases h
  · split at h
    · cases h
    · split at h
      · cases h
      · split at h
        · cases h
        · simp only [Except.ok.injEq] at h
          subst h
          exact ⟨(scanParts_meta _ _).1, (scanParts_meta _ _).2⟩

/-- Case normal form of `generateImage` with a present credential and an
explicit caller-supplied model: either the fallback is taken (pro model
and retryable first status) and two requests go out, the second processed
against the flash model, or exactly one request goes out and is processed
against the caller model. -/
theorem generateImage_eq_cases (k : String) (net : Nat → HttpResp) (prompt : String)
    (images : List InputImage) (model : String) (aArg fArg : Option String) :
    generateImage (some k) net prompt images (some model) aArg fArg =
      if model = proModel ∧ retryableStatus (net 0).status = true then
        (finishResponse (net 1) flashModel true,
         [mkRequest k (buildParts prompt images) proModel,
          mkRequest k (buildParts prompt images) flashModel])
      else
        (finishResponse (net 0) model false,
         [mkRequest k (buildParts prompt images) model]) := by
  by_cases hc : model = proModel ∧ retryableStatus (net 0).status = true
  · obtain ⟨hm, hs⟩ := hc
    have hok : (net 0).ok = false := retryable_not_ok _ hs
    subst hm
    simp [generateImage, hok, hs]
  · rw [if_neg hc]
    by_cases hm : model = proModel
    · have hs : retryableStatus (net 0).status = false := by
        cases hb : retryableStatus (net 0).status
        · rfl
        · exact absurd ⟨hm, hb⟩ hc
      subst hm
      cases hok : (net 0).ok
      · simp [generateImage, hok, hs]
      · simp [generateImage, hok, hs]
    · have hb : (model == proModel) = false := by
        simp [hm]
      simp [generateImage, hb]

/-- Claim C1: for every call to `generateImage` with the credential
present, a second network request is issued iff the caller-supplied model
is the pro variant and the first response status is 429, 403 or 402; in
that case the single retry targets the flash variant with an identical
body, and a successful result has `fallback = true` and `modelUsed` equal
to the flash variant; in every other successful case `fallback = false`
and `modelUsed` equals the caller-supplied model. -/
theorem claim1_fallback_retry (apiKey : Option String) (k : String) (net : Nat → HttpResp)
    (prompt : String) (images : List InputImage) (model : String)
    (aArg fArg : Option String) (res : Except String GenResult) (tr : List GenRequest)
    (hk : apiKey = some k)
    (heq : generateImage apiKey net prompt images (some model) aArg fArg = (res, tr)) :
    (tr.length = 2 ↔
      model = proModel ∧
        ((net 0).status = 429 ∨ (net 0).status = 403 ∨ (net 0).status = 402)) ∧
    (tr.length = 1 ∨ tr.length = 2) ∧
    (model = proModel →
      ((net 0).status = 429 ∨ (net 0).status = 403 ∨ (net 0).status = 402) →
      tr = [mkRequest k (buildParts prompt images) proModel,
            mkRequest k (buildParts prompt images) flashModel] ∧
      (tr.map GenRequest.body).tail = (tr.map GenRequest.body).take 1 ∧
      ∀ r, res = Except.ok r → r.fallback = true ∧ r.modelUsed = flashModel) ∧
    (¬(model = proModel ∧
        ((net 0).status = 429 ∨ (net 0).status = 403 ∨ (net 0).status = 402)) →
      tr = [mkRequest k (buildParts prompt images) model] ∧
      ∀ r, res = Except.ok r → r.fallback = false ∧ r.modelUsed = model) := by
  subst hk
  rw [generateImage_eq_cases] at heq
  by_cases hc : model = proModel ∧ retryableStatus (net 0).status = true
  · rw [if_pos hc] at heq
    injection heq with hres htr
    have hcs : model = proModel ∧
        ((net 0).status = 429 ∨ (net 0).status = 403 ∨ (net 0).status = 402) :=
      ⟨hc.1, (retryableStatus_iff _).1 hc.2⟩
    subst hres htr
    refine ⟨by simpa using hcs, Or.inr rfl, fun _ _ => ⟨rfl, rfl, ?_⟩, fun h => absurd hcs h⟩
    intro r hr
    have := finishResponse_ok_meta hr
    exact ⟨this.2, this.1⟩
  · rw [if_neg hc] at heq
    injection heq with hres htr
    have hcs : ¬(model = proModel ∧
        ((net 0).status = 429 ∨ (net 0).status = 403 ∨ (net 0).status = 402)) := by
      intro hx
      exact hc ⟨hx.1, (retryableStatus_iff _).2 hx.2⟩
    subst hres htr
    refine ⟨by simpa using hcs, Or.inl rfl, fun hm hs => absurd ⟨hm, hs⟩ hcs, fun _ => ⟨rfl, ?_⟩⟩
    intro r hr
    have := finishResponse_ok_meta hr
    exact ⟨this.2, this.1⟩

/-- Network fixture for the claim C1 witness: first response 429, the
retry succeeding with a single text part. -/
def c1Net : Nat → HttpResp := fun n =>
  if n = 0 then { status := 429, bodyText := "Rate limit exceeded", bodyJson := {} }
  else
    { status := 200, bodyText := ""
      bodyJson :=
        { candidates :=
            some [{ content := some { parts := some [{ text := some "ok", inlineData := none }] } }]
          error := none } }

/-- Witness for claim C1: with a pro-model request rate-limited at 429,
two requests are observed. -/
theorem claim1_fallback_retry_witness :
    (c1Net 0).status = 429 ∧
    (generateImage (some "key") c1Net "a prompt" [] (some proModel) none none).2.length = 2 :=
  ⟨rfl,
   (claim1_fallback_retry (some "key") "key" c1Net "a prompt" [] proModel none none
       _ _ rfl rfl).1.mpr ⟨rfl, Or.inl rfl⟩⟩

theorem generateImage_fst_ok_case (k : String) (net : Nat → HttpResp) (prompt : String)
    (images : List InputImage) (model : String) (aArg fArg : Option String)
    (hok : (net 0).ok = true) :
    generateImage (some k) net prompt images (some model) aArg fArg =
      (finishResponse (net 0) model false,
       [mkRequest k (buildParts prompt images) model]) := by
  rw [generateImage_eq_cases, if_neg]
  intro hc
  have h1 := ok_not_retryable _ hok
  rw [hc.2] at h1
  cases h1

theorem finishResponse_normalized (resp : HttpResp) (u : String) (f : Bool)
    (rps : List RespPart) (hok : resp.ok = true) (herr : resp.bodyJson.error = none)
    (hfp : firstParts resp.bodyJson = some rps) (hne : rps ≠ []) :
    finishResponse resp u f =
      Except.ok (scanParts rps { modelUsed := u, fallback := f }) := by
  have hlen : ¬ rps.length = 0 := by simpa using hne
  simp [finishResponse, hok, herr, hfp, hlen]

theorem finishResponse_noContent (resp : HttpResp) (u : String) (f : Bool)
    (hok : resp.ok = true) (herr : resp.bodyJson.error = none)
    (hfp : firstParts resp.bodyJson = none ∨ firstParts resp.bodyJson = some []) :
    finishResponse resp u f = Except.error "No content generated" := by
  rcases hfp with hfp | hfp <;> simp [finishResponse, hok, herr, hfp]

/-- Claim C5: with the credential present, every non-success status outside
the fallback condition is terminal: exactly the one request (or, on the
retried flash request, exactly the two requests) was issued and the call
fails with an error embedding the HTTP status code and the raw response
body text. -/
theorem claim5_terminal_error (apiKey : Option String) (k : String) (net : Nat → HttpResp)
    (prompt : String) (images : List InputImage) (model : String)
    (aArg fArg : Option String) (hk : apiKey = some k) :
    ((net 0).ok = false →
      ¬(model = proModel ∧
          ((net 0).status = 429 ∨ (net 0).status = 403 ∨ (net 0).status = 402)) →
      generateImage apiKey net prompt images (some model) aArg fArg =
        (Except.error
           ("Gemini API error: " ++ toString (net 0).status ++ " - " ++ (net 0).bodyText),
         [mkRequest k (buildParts prompt images) model])) ∧
    (model = proModel →
      ((net 0).status = 429 ∨ (net 0).status = 403 ∨ (net 0).status = 402) →
      (net 1).ok = false →
      generateImage apiKey net prompt images (some model) aArg fArg =
        (Except.error
           ("Gemini API error: " ++ toString (net 1).status ++ " - " ++ (net 1).bodyText),
         [mkRequest k (buildParts prompt images) proModel,
          mkRequest k (buildParts prompt images) flashModel])) := by
  subst hk
  constructor
  · intro hok hc
    rw [generateImage_eq_cases, if_neg, finishResponse_not_ok _ _ _ hok]
    intro hx
    exact hc ⟨hx.1, (retryableStatus_iff _).1 hx.2⟩
  · intro hm hs hok1
    rw [generateImage_eq_cases, if_pos ⟨hm, (retryableStatus_iff _).2 hs⟩,
        finishResponse_not_ok _ _ _ hok1]

/-- Network fixture for the claim C5 witness: a flash-model request
rate-limited at 429, which must be terminal. -/
def c5Net : Nat → HttpResp := fun _ =>
  { status := 429, bodyText := "Rate limit exceeded", bodyJson := {} }

/-- Witness for claim C5: a flash-model 429 yields one request and the
embedding error message. -/
theorem claim5_terminal_error_witness :
    (c5Net 0).ok = false ∧
    generateImage (some "key") c5Net "p" [] (some flashModel) none none =
      (Except.error "Gemini API error: 429 - Rate limit exceeded",
       [mkRequest "key" (buildParts "p" []) flashModel]) := by
  refine ⟨by decide, ?_⟩
  have h := (claim5_terminal_error (some "key") "key" c5Net "p" [] flashModel
      none none rfl).1 (by decide) (by decide)
  simpa using h

/-- Claim C6: a response with a success HTTP status whose parsed body
carries an error object makes `generateImage` fail with an error carrying
that message, both on the first response and on the retried response. -/
theorem claim6_body_error (apiKey : Option String) (k : String) (net : Nat → HttpResp)
    (prompt : String) (images : List InputImage) (model : String)
    (aArg fArg : Option String) (err : GemError) (hk : apiKey = some k) :
    ((net 0).ok = true → (net 0).bodyJson.error = some err →
      (generateImage apiKey net prompt images (some model) aArg fArg).1 =
        Except.error ("Gemini API error: " ++ err.message)) ∧
    (model = proModel →
      ((net 0).status = 429 ∨ (net 0).status = 403 ∨ (net 0).status = 402) →
      (net 1).ok = true → (net 1).bodyJson.error = some err →
      (generateImage apiKey net prompt images (some model) aArg fArg).1 =
        Except.error ("Gemini API error: " ++ err.message)) := by
  subst hk
  constructor
  · intro hok he
    rw [generateImage_fst_ok_case _ _ _ _ _ _ _ hok]
    exact finishResponse_body_error _ _ _ _ hok he
  · intro hm hs hok1 he
    rw [generateImage_eq_cases, if_pos ⟨hm, (retryableStatus_iff _).2 hs⟩]
    exact finishResponse_body_error _ _ _ _ hok1 he

/-- Network fixture for the claim C6 witness: HTTP 200 with an error
object in the body. -/
def c6Net : Nat → HttpResp := fun _ =>
  { status := 200, bodyText := ""
    bodyJson := { candidates := none, error := some { message := "Invalid API key" } } }

/-- Witness for claim C6 at a 200 response whose body carries
an error message. -/
theorem claim6_body_error_witness :
    (c6Net 0).ok = true ∧
    (generateImage (some "key") c6Net "p" [] (some flashModel) none none).1 =
      Except.error "Gemini API error: Invalid API key" := by
  refine ⟨by decide, ?_⟩
  have h := (claim6_body_error (some "key") "key" c6Net "p" [] flashModel none none
      { message := "Invalid API key" } rfl).1 (by decide) rfl
  simpa using h

/-- Claim C3: for a successful HTTP response whose body has no error
object, `generateImage` fails with the no-content error iff the first
candidate, its content, or its parts list is absent or empty; otherwise
the result is built from the scan where the last text-bearing part and the
last image-bearing part win, text-only and image-only outcomes both being
successes. -/
theorem claim3_normalization (apiKey : Option String) (k : String) (net : Nat → HttpResp)
    (prompt : String) (images : List InputImage) (model : String)
    (aArg fArg : Option String) (hk : apiKey = some k)
    (hok : (net 0).ok = true) (herr : (net 0).bodyJson.error = none) :
    ((generateImage apiKey net prompt images (some model) aArg fArg).1 =
        Except.error "No content generated" ↔
      (firstParts (net 0).bodyJson = none ∨ firstParts (net 0).bodyJson = some [])) ∧
    (∀ rps, firstParts (net 0).bodyJson = some rps → rps ≠ [] →
      ∃ r, (generateImage apiKey net prompt images (some model) aArg fArg).1 =
          Except.ok r ∧
        r.text = lastTruthyText rps ∧
        r.imageData = (lastInline rps).map InlineData.data ∧
        r.mimeType = (lastInline rps).map InlineData.mimeType) := by
  subst hk
  rw [generateImage_fst_ok_case _ _ _ _ _ _ _ hok]
  constructor
  · constructor
    · intro herror
      cases hfp : firstParts (net 0).bodyJson with
      | none => exact Or.inl rfl
      | some rps =>
        cases rps with
        | nil => exact Or.inr rfl
        | cons p rest =>
          rw [finishResponse_normalized _ _ _ _ hok herr hfp (by simp)] at herror
          cases herror
    · intro hfp
      exact finishResponse_noContent _ _ _ hok herr hfp
  · intro rps hfp hne
    refine ⟨scanParts rps { modelUsed := model, fallback := false },
      finishResponse_normalized _ _ _ _ hok herr hfp hne, ?_, ?_, ?_⟩
    · rw [scanParts_text]
      cases lastTruthyText rps <;> simp
    · rw [(scanParts_inline rps _).1]
      cases lastInline rps <;> simp
    · rw [(scanParts_inline rps _).2]
      cases lastInline rps <;> simp

/-- Response parts fixture for the claim C3 witness: one text part and
one inline-data part. -/
def c3PartsFixture : List RespPart :=
  [{ text := some "Generated image description", inlineData := none },
   { text := none, inlineData := some { mimeType := "image/png", data := "base64imagedata" } }]

/-- Network fixture for the claim C3 witness: a body with one text part
and one inline-data part. -/
def c3Net : Nat → HttpResp := fun _ =>
  { status := 200, bodyText := ""
    bodyJson :=
      { candidates := some [{ content := some { parts := some c3PartsFixture } }]
        error := none } }

/-- Witness for claim C3: text and image are both extracted from the
two-part body. -/
theorem claim3_normalization_witness :
    (c3Net 0).ok = true ∧
    ∃ r, (generateImage (some "key") c3Net "p" [] (some flashModel) none none).1 =
        Except.ok r ∧
      r.text = lastTruthyText c3PartsFixture ∧
      r.imageData = (lastInline c3PartsFixture).map InlineData.data ∧
      r.mimeType = (lastInline c3PartsFixture).map InlineData.mimeType := by
  refine ⟨by decide, ?_⟩
  exact (claim3_normalization (some "key") "key" c3Net "p" [] flashModel none none
      rfl (by decide) rfl).2 _ rfl (by simp [c3PartsFixture])

/-- Network fixture refuting claim C2: the parts list is non-empty but its
only part bears neither text nor inline data. -/
def c2Net : Nat → HttpResp := fun _ =>
  { status := 200, bodyText := ""
    bodyJson :=
      { candidates :=
          some [{ content := some { parts := some [{ text := none, inlineData := none }] } }]
        error := none } }

/-- Counterexample to claim C2 as stated: a non-empty parts list whose
only part carries neither text nor inline data passes the emptiness check,
so `generateImage` returns a success in which both `text` and `imageData`
are absent — the neither case does reach the caller as a success. -/
theorem claim2_counterexample :
    (generateImage (some "key") c2Net "p" [] (some flashModel) none none).1 =
      Except.ok { text := none, imageData := none, mimeType := none,
                  modelUsed := flashModel, fallback := false } := rfl

/-- Claim C2 as amended: for a successful response without a body error and
with a non-empty parts list, the success result carries neither text nor
image data exactly when no part of the list bears truthy text or inline
data; when some part does, the result carries text or image data. The
absent-or-empty parts list case remains an error (claim C3). -/
theorem claim2_amended_neither_case (apiKey : Option String) (k : String)
    (net : Nat → HttpResp) (prompt : String) (images : List InputImage) (model : String)
    (aArg fArg : Option String) (rps : List RespPart) (hk : apiKey = some k)
    (hok : (net 0).ok = true) (herr : (net 0).bodyJson.error = none)
    (hfp : firstParts (net 0).bodyJson = some rps) (hne : rps ≠ []) :
    (∃ r, (generateImage apiKey net prompt images (some model) aArg fArg).1 =
        Except.ok r ∧ r.text = none ∧ r.imageData = none) ↔
      ∀ p ∈ rps, jsTruthy p.text = false ∧ p.inlineData = none := by
  subst hk
  rw [generateImage_fst_ok_case _ _ _ _ _ _ _ hok,
      finishResponse_normalized _ _ _ _ hok herr hfp hne]
  constructor
  · rintro ⟨r, hr, htext, himg⟩
    simp only [Except.ok.injEq] at hr
    subst hr
    rw [scanParts_text] at htext
    rw [(scanParts_inline rps _).1] at himg
    have h1 : lastTruthyText rps = none := by
      cases h : lastTruthyText rps
      · rfl
      · rw [h] at htext; cases htext
    have h2 : lastInline rps = none := by
      cases h : lastInline rps
      · rfl
      · rw [h] at himg; cases himg
    intro p hp
    exact ⟨(lastTruthyText_eq_none_iff rps).1 h1 p hp,
           (lastInline_eq_none_iff rps).1 h2 p hp⟩
  · intro hall
    refine ⟨scanParts rps { modelUsed := model, fallback := false }, rfl, ?_, ?_⟩
    · rw [scanParts_text,
          (lastTruthyText_eq_none_iff rps).2 (fun p hp => (hall p hp).1)]
    · rw [(scanParts_inline rps _).1,
          (lastInline_eq_none_iff rps).2 (fun p hp => (hall p hp).2)]

/-- Witness for the amended claim C2 on the counterexample body: the
only part bears nothing, so the success result carries neither field. -/
theorem claim2_amended_neither_case_witness :
    (c2Net 0).ok = true ∧
    ∃ r, (generateImage (some "key") c2Net "p" [] (some flashModel) none none).1 =
        Except.ok r ∧ r.text = none ∧ r.imageData = none := by
  refine ⟨by decide, ?_⟩
  exact (claim2_amended_neither_case (some "key") "key" c2Net "p" [] flashModel none none
      [{ text := none, inlineData := none }] rfl (by decide) rfl rfl (by simp)).2
    (by intro p hp; simp at hp; subst hp; exact ⟨rfl, rfl⟩)

/-- Claim C4: for every prompt (the empty string included) and every
image sequence of length at most 14, the outbound parts list has length
one more than the number of images, part 0 is a text part holding the
prompt verbatim, and part `i+1` is an inline-data part for image `i`
carrying its own MIME type, with image/png substituted when the MIME type
is absent. -/
theorem claim4_request_parts (prompt : String) (images : List InputImage)
    (hlen : images.length ≤ 14) :
    (buildParts prompt images).length = images.length + 1 ∧
    (buildParts prompt images).head? = some (Part.text prompt) ∧
    (∀ i im, images[i]? = some im →
      (buildParts prompt images)[i + 1]? =
        some (Part.inlineData (jsStrOr im.mimeType "image/png") im.data) ∧
      (im.mimeType = none → jsStrOr im.mimeType "image/png" = "image/png") ∧
      (∀ m, im.mimeType = some m → m ≠ "" → jsStrOr im.mimeType "image/png" = m)) := by
  refine ⟨by simp [buildParts], rfl, ?_⟩
  intro i im him
  refine ⟨?_, ?_, ?_⟩
  · simp [buildParts, List.getElem?_map, him]
  · intro hmt
    simp [jsStrOr, hmt]
  · intro m hmt hm
    simp [jsStrOr, hmt, hm]

/-- Witness for claim C4 on a two-image sequence, one image with an
absent MIME type. -/
theorem claim4_request_parts_witness :
    ([({ data := "imgA", mimeType := some "image/jpeg" } : InputImage),
      { data := "imgB", mimeType := none }] : List InputImage).length ≤ 14 ∧
    (buildParts "Combine these images"
        [{ data := "imgA", mimeType := some "image/jpeg" },
         { data := "imgB", mimeType := none }]).length = 2 + 1 ∧
    (buildParts "Combine these images"
        [{ data := "imgA", mimeType := some "image/jpeg" },
         { data := "imgB", mimeType := none }])[1]? =
      some (Part.inlineData "image/jpeg" "imgA") :=
  ⟨by decide,
   (claim4_request_parts "Combine these images"
      [{ data := "imgA", mimeType := some "image/jpeg" },
       { data := "imgB", mimeType := none }] (by decide)).1,
   ((claim4_request_parts "Combine these images"
      [{ data := "imgA", mimeType := some "image/jpeg" },
       { data := "imgB", mimeType := none }] (by decide)).2.2 0
      { data := "imgA", mimeType := some "image/jpeg" } rfl).1⟩

/-- Claim C9: the aspect-ratio and output-format arguments have no effect
on `generateImage`; with the credential present, every outbound request
carries the credential in its key header and a body consisting only of the
constructed parts and the fixed TEXT and IMAGE response modalities, the
model appearing only in the endpoint URL (the caller model, or the flash
variant on the retry). -/
theorem claim9_frame_effect (apiKey : Option String) (net : Nat → HttpResp)
    (prompt : String) (images : List InputImage) (marg a1 f1 a2 f2 : Option String) :
    generateImage apiKey net prompt images marg a1 f1 =
      generateImage apiKey net prompt images marg a2 f2 ∧
    (∀ k, apiKey = some k →
      ∀ req ∈ (generateImage apiKey net prompt images marg a1 f1).2,
        req.apiKeyHeader = k ∧
        req.body = { parts := buildParts prompt images
                     responseModalities := ["TEXT", "IMAGE"] } ∧
        (req.url = requestUrl (marg.getD proModel) ∨ req.url = requestUrl flashModel)) := by
  constructor
  · rfl
  · intro k hk req hreq
    subst hk
    simp only [generateImage] at hreq
    split at hreq
    · split at hreq
      · simp only [List.mem_cons, List.not_mem_nil, or_false] at hreq
        rcases hreq with rfl | rfl
        · exact ⟨rfl, rfl, Or.inl rfl⟩
        · exact ⟨rfl, rfl, Or.inr rfl⟩
      · simp only [List.mem_cons, List.not_mem_nil, or_false] at hreq
        rcases hreq with rfl
        exact ⟨rfl, rfl, Or.inl rfl⟩
    · simp only [List.mem_cons, List.not_mem_nil, or_false] at hreq
      rcases hreq with rfl
      exact ⟨rfl, rfl, Or.inl rfl⟩

/-- Network fixture for the claim C9 witness. -/
def c9Net : Nat → HttpResp := fun _ =>
  { status := 200, bodyText := "", bodyJson := {} }

/-- Witness for claim C9: two calls differing only in aspect ratio and
output format coincide, and the one observed request carries the fixed
body. -/
theorem claim9_frame_effect_witness :
    generateImage (some "key") c9Net "p" [] (some flashModel) (some "16:9") (some "jpeg") =
      generateImage (some "key") c9Net "p" [] (some flashModel) (some "1:1") (some "png") ∧
    (mkRequest "key" (buildParts "p" []) flashModel).body =
      { parts := buildParts "p" [], responseModalities := ["TEXT", "IMAGE"] } :=
  ⟨(claim9_frame_effect (some "key") c9Net "p" [] (some flashModel)
      (some "16:9") (some "jpeg") (some "1:1") (some "png")).1,
   ((claim9_frame_effect (some "key") c9Net "p" [] (some flashModel)
      (some "16:9") (some "jpeg") (some "1:1") (some "png")).2 "key" rfl
      (mkRequest "key" (buildParts "p" []) flashModel) (by decide)).2.1⟩

/-- Claim C7: the tool handler never throws outward: every invocation
produces either an error-free content list or a single text block carrying
the failure message behind the `Error: ` marker with the error flag set;
in particular a missing credential and an unreadable first reference image
funnel their messages through this conversion. -/
theorem claim7_error_conversion (env : ToolEnv) (args : ToolArgs) (name : String) :
    ((∃ cs w, handleCallTool env name args = ({ content := cs, isError := false }, w)) ∨
     (∃ msg, handleCallTool env name args =
        ({ content := [ContentBlock.text ("Error: " ++ msg)], isError := true }, []))) ∧
    (∀ imgs, env.apiKey = none →
      loadImages env.fsRead args.imagePaths = Except.ok imgs →
      handleCallTool env "generate_image" args =
        ({ content := [ContentBlock.text
            ("Error: " ++ "GEMINI_API_KEY environment variable is not set")]
           isError := true }, [])) ∧
    (∀ p ps e, args.imagePaths = some (p :: ps) → env.fsRead p = Except.error e →
      handleCallTool env "generate_image" args =
        ({ content := [ContentBlock.text ("Error: " ++ e)], isError := true }, [])) := by
  refine ⟨?_, ?_, ?_⟩
  · by_cases hn : name = "generate_image"
    · subst hn
      cases h : runTool env args with
      | ok cw => exact Or.inl ⟨cw.1, cw.2, by simp [handleCallTool, h]⟩
      | error msg => exact Or.inr ⟨msg, by simp [handleCallTool, h, errorResponse]⟩
    · exact Or.inr ⟨"Unknown tool: " ++ name, by simp [handleCallTool, hn, errorResponse]⟩
  · intro imgs hkey hload
    simp [handleCallTool, runTool, hload, hkey, generateImage, errorResponse]
  · intro p ps e hip hre
    simp [handleCallTool, runTool, loadImages, hip, loadImagesList, loadImageFromPath,
          hre, errorResponse]

/-- Environment fixture for the claim C7 witness: no credential
configured. -/
def c7Env : ToolEnv :=
  { apiKey := none
    fsRead := fun _ => Except.ok []
    net := fun _ => { status := 200, bodyText := "", bodyJson := {} }
    fsWriteErr := fun _ => none }

/-- Witness for claim C7: with no credential, the invocation returns the
error-flagged single text block rather than throwing. -/
theorem claim7_error_conversion_witness :
    c7Env.apiKey = none ∧
    handleCallTool c7Env "generate_image" { prompt := "p" } =
      ({ content := [ContentBlock.text
          ("Error: " ++ "GEMINI_API_KEY environment variable is not set")]
         isError := true }, []) :=
  ⟨rfl, (claim7_error_conversion c7Env { prompt := "p" } "generate_image").2.1 [] rfl rfl⟩

theorem renderContent_head (r : GenResult) (outputPath : Option String)
    (fw : String → Option String) (cs : List ContentBlock) (w : List WriteEvent)
    (h : renderContent r outputPath fw = Except.ok (cs, w)) :
    cs.head? = some (ContentBlock.text (statusText r)) := by
  unfold renderContent at h
  repeat split at h
  any_goals cases h
  all_goals rfl

/-- Claim C8: on a successful invocation the content sequence starts with
the status block, which names the model actually used, carries the
fallback note whenever a fallback occurred (whether or not result text is
present), and appends the result text on a new paragraph when truthy;
when image data and MIME type are present, a truthy output path produces
a write of the decoded bytes plus a confirmation block, and a falsy
output path (absent, or supplied but empty) produces an inline image
block. -/
theorem claim8_success_content (env : ToolEnv) (args : ToolArgs)
    (imgs : List InputImage) (r : GenResult)
    (hload : loadImages env.fsRead args.imagePaths = Except.ok imgs)
    (hgen : (generateImage env.apiKey env.net args.prompt imgs
        args.model args.aspectRatioArg args.outputFormatArg).1 = Except.ok r) :
    (∃ s, statusText r = "Model used: " ++ r.modelUsed ++ s) ∧
    (r.fallback = true → ∃ s, statusText r =
      "Model used: " ++ r.modelUsed ++
        " (fallback from gemini-3-pro-image-preview due to quota/rate limit)" ++ s) ∧
    (∀ t, r.text = some t → t ≠ "" → ∃ s, statusText r = s ++ "\n\n" ++ t) ∧
    (∀ cs w, handleCallTool env "generate_image" args =
        ({ content := cs, isError := false }, w) →
      cs.head? = some (ContentBlock.text (statusText r))) ∧
    (∀ d m p, r.imageData = some d → d ≠ "" → r.mimeType = some m → m ≠ "" →
      args.outputPath = some p → p ≠ "" → env.fsWriteErr p = none →
      handleCallTool env "generate_image" args =
        ({ content := [ContentBlock.text (statusText r),
                       ContentBlock.text ("Image saved to: " ++ p)]
           isError := false },
         [{ path := p, bytes := base64Decode d }])) ∧
    (∀ d m, r.imageData = some d → d ≠ "" → r.mimeType = some m → m ≠ "" →
      args.outputPath = none →
      handleCallTool env "generate_image" args =
        ({ content := [ContentBlock.text (statusText r), ContentBlock.image d m]
           isError := false }, [])) ∧
    (∀ d m, r.imageData = some d → d ≠ "" → r.mimeType = some m → m ≠ "" →
      args.outputPath = some "" →
      handleCallTool env "generate_image" args =
        ({ content := [ContentBlock.text (statusText r), ContentBlock.image d m]
           isError := false }, [])) := by
  refine ⟨?_, ?_, ?_, ?_, ?_, ?_, ?_⟩
  · unfold statusText
    cases hf : r.fallback <;> cases ht : r.text
    · exact ⟨"", by simp⟩
    · rename_i t
      by_cases htne : t = ""
      · exact ⟨"", by simp [htne]⟩
      · exact ⟨"\n\n" ++ t, by simp [htne, String.append_assoc]⟩
    · exact ⟨" (fallback from gemini-3-pro-image-preview due to quota/rate limit)",
        by simp [String.append_assoc]⟩
    · rename_i t
      by_cases htne : t = ""
      · exact ⟨" (fallback from gemini-3-pro-image-preview due to quota/rate limit)",
          by simp [htne, String.append_assoc]⟩
      · exact ⟨" (fallback from gemini-3-pro-image-preview due to quota/rate limit)" ++
            "\n\n" ++ t, by simp [htne, String.append_assoc]⟩
  · intro hf
    cases ht : r.text
    · refine ⟨"", ?_⟩
      unfold statusText
      simp [hf, ht, String.append_assoc]
    · rename_i t
      by_cases htne : t = ""
      · refine ⟨"", ?_⟩
        unfold statusText
        simp [hf, ht, htne, String.append_assoc]
      · have hst : statusText r =
            ("Model used: " ++ r.modelUsed ++
              " (fallback from gemini-3-pro-image-preview due to quota/rate limit)") ++
              "\n\n" ++ t := by
          unfold statusText
          simp [hf, ht, htne]
        exact ⟨"\n\n" ++ t, hst.trans (String.append_assoc _ _ _)⟩
  · intro t ht htne
    unfold statusText
    cases hf : r.fallback
    · exact ⟨"Model used: " ++ r.modelUsed, by simp [ht, htne]⟩
    · exact ⟨"Model used: " ++ r.modelUsed ++
        " (fallback from gemini-3-pro-image-preview due to quota/rate limit)",
        by simp [ht, htne, String.append_assoc]⟩
  · intro cs w hct
    rw [show handleCallTool env "generate_image" args =
        (match runTool env args with
         | Except.ok (c, w) => ({ content := c, isError := false }, w)
         | Except.error msg => (errorResponse msg, [])) from by
      simp [handleCallTool]] at hct
    rw [show runTool env args = renderContent r args.outputPath env.fsWriteErr from by
      simp [runTool, hload, hgen]] at hct
    cases hrc : renderContent r args.outputPath env.fsWriteErr with
    | ok cw =>
      rw [hrc] at hct
      simp only [Prod.mk.injEq, ToolResponse.mk.injEq] at hct
      rw [← hct.1.1]
      exact renderContent_head _ _ _ cw.1 cw.2 (by rw [hrc])
    | error msg =>
      rw [hrc] at hct
      simp [errorResponse] at hct
  · intro d m p hd hdne hm hmne hp hpne hwr
    have hrc : renderContent r args.outputPath env.fsWriteErr =
        Except.ok ([ContentBlock.text (statusText r),
                    ContentBlock.text ("Image saved to: " ++ p)],
                   [{ path := p, bytes := base64Decode d }]) := by
      unfold renderContent
      simp [hd, hm, hdne, hmne, hp, hpne, hwr]
    simp [handleCallTool, runTool, hload, hgen, hrc]
  · intro d m hd hdne hm hmne hp
    have hrc : renderContent r args.outputPath env.fsWriteErr =
        Except.ok ([ContentBlock.text (statusText r), ContentBlock.image d m], []) := by
      unfold renderContent
      simp [hd, hm, hdne, hmne, hp]
    simp [handleCallTool, runTool, hload, hgen, hrc]
  · intro d m hd hdne hm hmne hp
    have hrc : renderContent r args.outputPath env.fsWriteErr =
        Except.ok ([ContentBlock.text (statusText r), ContentBlock.image d m], []) := by
      unfold renderContent
      simp [hd, hm, hdne, hmne, hp]
    simp [handleCallTool, runTool, hload, hgen, hrc]

/-- Claim C10: when the generation result carries no image data, no file
write is performed even when an output path was supplied, and the content
sequence is exactly the status block. -/
theorem claim10_no_image_no_write (env : ToolEnv) (args : ToolArgs)
    (imgs : List InputImage) (r : GenResult)
    (hload : loadImages env.fsRead args.imagePaths = Except.ok imgs)
    (hgen : (generateImage env.apiKey env.net args.prompt imgs
        args.model args.aspectRatioArg args.outputFormatArg).1 = Except.ok r)
    (him : r.imageData = none ∨ r.mimeType = none) :
    handleCallTool env "generate_image" args =
      ({ content := [ContentBlock.text (statusText r)], isError := false }, []) := by
  have hrc : renderContent r args.outputPath env.fsWriteErr =
      Except.ok ([ContentBlock.text (statusText r)], []) := by
    unfold renderContent
    rcases him with h | h
    · simp [h]
    · cases hi : r.imageData <;> simp [h, hi]
  simp [handleCallTool, runTool, hload, hgen, hrc]

/-- Response parts fixture for the claim C8 witness: a single inline-data
part. -/
def c8Parts : List RespPart :=
  [{ text := none, inlineData := some { mimeType := "image/png", data := "aGk=" } }]

/-- Network fixture for the claim C8 witness: the pro-model request is
rate-limited at 429 and the flash retry succeeds with an image-only
part, so the witness result is an image-only fallback. -/
def c8Net : Nat → HttpResp := fun n =>
  if n = 0 then { status := 429, bodyText := "Rate limit exceeded", bodyJson := {} }
  else
    { status := 200, bodyText := ""
      bodyJson :=
        { candidates := some [{ content := some { parts := some c8Parts } }]
          error := none } }

/-- Environment fixture for the claim C8 witness: credential set, readable
reference images, writable output path. -/
def c8Env : ToolEnv :=
  { apiKey := some "key"
    fsRead := fun _ => Except.ok [1, 2]
    net := c8Net
    fsWriteErr := fun _ => none }

/-- Argument fixture for the claim C8 witness: two reference images and an
output path. -/
def c8Args : ToolArgs :=
  { prompt := "two refs"
    imagePaths := some ["/a.png", "/b.jpg"]
    outputPath := some "/out.png" }

/-- Witness for claim C8 at an image-only fallback result with two
reference images and an output path: the status block carries the
fallback note although the result has no text, the decoded image bytes
are written to the path, and the content is the status block plus a
confirmation block naming the path, with no inline image block. -/
theorem claim8_success_content_witness :
    c8Env.fsWriteErr "/out.png" = none ∧
    (∃ s, statusText
        { text := none, imageData := some "aGk=", mimeType := some "image/png"
          modelUsed := flashModel, fallback := true } =
      "Model used: " ++ flashModel ++
        " (fallback from gemini-3-pro-image-preview due to quota/rate limit)" ++ s) ∧
    handleCallTool c8Env "generate_image" c8Args =
      ({ content := [ContentBlock.text (statusText
            { text := none, imageData := some "aGk=", mimeType := some "image/png"
              modelUsed := flashModel, fallback := true }),
          ContentBlock.text ("Image saved to: " ++ "/out.png")]
         isError := false },
       [{ path := "/out.png", bytes := base64Decode "aGk=" }]) :=
  ⟨rfl,
   (claim8_success_content c8Env c8Args
      [{ data := "AQI=", mimeType := some "image/png" },
       { data := "AQI=", mimeType := some "image/jpeg" }]
      { text := none, imageData := some "aGk=", mimeType := some "image/png"
        modelUsed := flashModel, fallback := true }
      (by decide) (by decide)).2.1 rfl,
   (claim8_success_content c8Env c8Args
      [{ data := "AQI=", mimeType := some "image/png" },
       { data := "AQI=", mimeType := some "image/jpeg" }]
      { text := none, imageData := some "aGk=", mimeType := some "image/png"
        modelUsed := flashModel, fallback := true }
      (by decide) (by decide)).2.2.2.2.1 "aGk=" "image/png" "/out.png"
      rfl (by decide) rfl (by decide) rfl (by decide) rfl⟩

/-- Response parts fixture for the claim C10 witness: a single text part. -/
def c10Parts : List RespPart :=
  [{ text := some "Only text response", inlineData := none }]

/-- Network fixture for the claim C10 witness: a text-only response. -/
def c10Net : Nat → HttpResp := fun _ =>
  { status := 200, bodyText := ""
    bodyJson :=
      { candidates := some [{ content := some { parts := some c10Parts } }]
        error := none } }

/-- Environment fixture for the claim C10 witness. -/
def c10Env : ToolEnv :=
  { apiKey := some "key"
    fsRead := fun _ => Except.ok []
    net := c10Net
    fsWriteErr := fun _ => none }

/-- Argument fixture for the claim C10 witness: an output path is supplied
although the result will carry no image data. -/
def c10Args : ToolArgs :=
  { prompt := "p", outputPath := some "/tmp/out.png" }

/-- Witness for claim C10: a text-only result with an output path supplied
produces exactly the status block and no write. -/
theorem claim10_no_image_no_write_witness :
    c10Args.outputPath = some "/tmp/out.png" ∧
    handleCallTool c10Env "generate_image" c10Args =
      ({ content := [ContentBlock.text (statusText
            { text := some "Only text response", imageData := none, mimeType := none
              modelUsed := proModel, fallback := false })]
         isError := false }, []) :=
  ⟨rfl,
   claim10_no_image_no_write c10Env c10Args []
      { text := some "Only text response", imageData := none, mimeType := none
        modelUsed := proModel, fallback := false }
      (by decide) (by decide) (Or.inl rfl)⟩

end NanoBanana
